import Mathlib

/-!
Verification of the Advent-of-Code helper scripts
(`scripts/download_inputs.py`, `scripts/use_day01_as_template.py`,
`scripts/utils.py`) against their specification.

Strings are modelled as `List Char` (`String.data`), instants as `Int`
(seconds on an absolute timeline), and the filesystem / network as explicit
state and oracle functions.
-/

/-! ## Throttled cache-backed fetcher (`AOCDownloader.download_file`) -/

/-- Model of `url.replace("/", "_")` from `download_file` (line 25): the cache-file
name is the URL with every slash replaced by an underscore. -/
def urlKey (url : List Char) : List Char :=
  url.map (fun c => if c = '/' then '_' else c)

/-- An HTTP response as seen by the script: a status code and a body text. -/
structure Response where
  status : Nat
  text : List Char
deriving DecidableEq

/-- Per requests, `Response.raise_for_status` raises an `HTTPError` exactly for
status codes in `[400, 600)` (client and server errors). -/
def failStatus (s : Nat) : Bool :=
  decide (400 ≤ s) && decide (s < 600)

/-- The mutable state of an `AOCDownloader` together with the on-disk cache
it reads and writes.  A cache entry is keyed by the pair
(session id, url with slashes underscored), modelling the path
`.cache/<session>/<urlKey url>`.  `wait_until` and `throttle_period` are the
throttle fields of the class. -/
structure DLState where
  session : List Char
  throttle_period : Int
  wait_until : Int
  cache : List ((List Char × List Char) × List Char)
deriving DecidableEq

/-- Look a key up in the cache (models `cache_file.exists()` plus
`cache_file.open().read()`: the stored body is returned verbatim). -/
def lookupCache (cache : List ((List Char × List Char) × List Char))
    (key : List Char × List Char) : Option (List Char) :=
  match cache with
  | [] => none
  | (k, v) :: rest => if k = key then some v else lookupCache rest key

/-- The cache key `download_file` derives for a URL (line 25). -/
def cacheKey (st : DLState) (url : List Char) : List Char × List Char :=
  (st.session, urlKey url)

/-- Model of `AOCDownloader.download_file` (lines 23-39).  `net` is the network
oracle (`requests.get`); `tComplete` is the value of `datetime.now()` when
the request completes, i.e. the instant observed by `reset_throttle`
(line 47).  Result: the returned text or the raised HTTP error status, the
new downloader/cache state, and the list of URLs actually requested over
the network. -/
def download_file (st : DLState) (net : List Char → Response)
    (tComplete : Int) (url : List Char) :
    Except Nat (List Char) × DLState × List (List Char) :=
  match lookupCache st.cache (cacheKey st url) with
  | some content => (Except.ok content, st, [])
  | none =>
    let res := net url
    let st1 : DLState := { st with wait_until := tComplete + st.throttle_period }
    if failStatus res.status then
      (Except.error res.status, st1, [url])
    else
      (Except.ok res.text,
       { st1 with cache := (cacheKey st url, res.text) :: st1.cache },
       [url])

instance {ε α : Type} [DecidableEq ε] [DecidableEq α] : DecidableEq (Except ε α)
  | Except.ok x, Except.ok y =>
    if h : x = y then .isTrue (h ▸ rfl) else .isFalse (fun hc => h (Except.ok.inj hc))
  | Except.ok _, Except.error _ => .isFalse (fun hc => Except.noConfusion hc)
  | Except.error _, Except.ok _ => .isFalse (fun hc => Except.noConfusion hc)
  | Except.error x, Except.error y =>
    if h : x = y then .isTrue (h ▸ rfl) else .isFalse (fun hc => h (Except.error.inj hc))

/-- Evaluation lemma: the cache-hit branch of `download_file`. -/
theorem download_file_hit (st : DLState) (net : List Char → Response)
    (t : Int) (url content : List Char)
    (h : lookupCache st.cache (cacheKey st url) = some content) :
    download_file st net t url = (Except.ok content, st, []) := by
  simp [download_file, h]

/-- Evaluation lemma: the cache-miss branch with a successful status. -/
theorem download_file_miss_ok (st : DLState) (net : List Char → Response)
    (t : Int) (url : List Char)
    (h : lookupCache st.cache (cacheKey st url) = none)
    (hf : failStatus (net url).status = false) :
    download_file st net t url =
      (Except.ok (net url).text,
       DLState.mk st.session st.throttle_period (t + st.throttle_period)
         ((cacheKey st url, (net url).text) :: st.cache),
       [url]) := by
  simp [download_file, h, hf]

/-- Evaluation lemma: the cache-miss branch with a failing status. -/
theorem download_file_miss_fail (st : DLState) (net : List Char → Response)
    (t : Int) (url : List Char)
    (h : lookupCache st.cache (cacheKey st url) = none)
    (hf : failStatus (net url).status = true) :
    download_file st net t url =
      (Except.error (net url).status,
       DLState.mk st.session st.throttle_period (t + st.throttle_period) st.cache,
       [url]) := by
  simp [download_file, h, hf]

/-! Concrete instances used by the witnesses below. -/

def bodyW : List Char := "BODY".data

def urlW : List Char := "https://adventofcode.com/2020/day/1/input".data

def netW : List Char → Response := fun _ => ⟨200, bodyW⟩

def netFailW : List Char → Response := fun _ => ⟨404, "Not Found".data⟩

def stHitW : DLState :=
  ⟨"sess".data, 5, 0, [(("sess".data, urlKey urlW), bodyW)]⟩

def stMissW : DLState := ⟨"sess".data, 5, 0, []⟩

/-- C1: a cache hit returns exactly the cached contents and performs no
network request, leaving the whole downloader state (in particular
`wait_until`) unchanged; consequently, starting from a cache miss whose
request succeeds, two successive fetches of the same URL under the same
session perform exactly one network request in total and the second call
returns the same content as the first. -/
theorem download_file_cache_hit_idempotent (st : DLState)
    (net : List Char → Response) (t1 t2 : Int) (url : List Char) :
    (∀ content, lookupCache st.cache (cacheKey st url) = some content →
      download_file st net t1 url = (Except.ok content, st, [])) ∧
    (lookupCache st.cache (cacheKey st url) = none →
      failStatus (net url).status = false →
      ((download_file st net t1 url).2.2 ++
        (download_file (download_file st net t1 url).2.1 net t2 url).2.2).length = 1 ∧
      (download_file (download_file st net t1 url).2.1 net t2 url).1 =
        (download_file st net t1 url).1) := by
  refine ⟨fun content h => download_file_hit st net t1 url content h, fun h hfail => ?_⟩
  rw [download_file_miss_ok st net t1 url h hfail]
  dsimp only
  rw [download_file_hit
    (DLState.mk st.session st.throttle_period (t1 + st.throttle_period)
      ((cacheKey st url, (net url).text) :: st.cache)) net t2 url (net url).text
    (by simp [lookupCache, cacheKey])]
  simp

/-- Witness for C1 at concrete inputs: a pre-populated cache is returned
verbatim with no request, and a fresh miss followed by a re-fetch issues
exactly one request with both calls returning the same body. -/
theorem download_file_cache_hit_idempotent_witness :
    download_file stHitW netW 0 urlW = (Except.ok bodyW, stHitW, []) ∧
    ((download_file stMissW netW 0 urlW).2.2 ++
      (download_file (download_file stMissW netW 0 urlW).2.1 netW 7 urlW).2.2).length = 1 ∧
    (download_file (download_file stMissW netW 0 urlW).2.1 netW 7 urlW).1 =
      (download_file stMissW netW 0 urlW).1 := by
  refine ⟨(download_file_cache_hit_idempotent stHitW netW 0 7 urlW).1 bodyW (by decide),
    (download_file_cache_hit_idempotent stMissW netW 0 7 urlW).2 (by decide) (by decide)⟩

/-- C2: on a cache miss the throttle deadline is set to the request's
completion time plus the throttle period, whatever the response status is
(`reset_throttle` runs before `raise_for_status`). -/
theorem download_file_resets_throttle (st : DLState)
    (net : List Char → Response) (t : Int) (url : List Char) :
    lookupCache st.cache (cacheKey st url) = none →
    (download_file st net t url).2.1.wait_until = t + st.throttle_period := by
  intro h
  simp only [download_file, h]
  split <;> rfl

/-- Witness for C2: a request failing with status 404 still advances the
deadline to completion time (3) plus period (5). -/
theorem download_file_resets_throttle_witness :
    (download_file stMissW netFailW 3 urlW).2.1.wait_until = 3 + 5 := by
  have h := download_file_resets_throttle stMissW netFailW 3 urlW (by decide)
  simpa [stMissW] using h

/-- C3: on a cache miss with a failing HTTP status, `download_file`
propagates an error, the cache is unchanged, and a later fetch of the same
URL is still a cache miss (it performs a network request again). -/
theorem download_file_error_no_cache_write (st : DLState)
    (net : List Char → Response) (t1 : Int) (url : List Char) :
    lookupCache st.cache (cacheKey st url) = none →
    failStatus (net url).status = true →
    (∃ e, (download_file st net t1 url).1 = Except.error e) ∧
    (download_file st net t1 url).2.1.cache = st.cache ∧
    ∀ t2, (download_file (download_file st net t1 url).2.1 net t2 url).2.2 = [url] := by
  intro h hfail
  refine ⟨⟨(net url).status, by rw [download_file_miss_fail st net t1 url h hfail]⟩,
    by rw [download_file_miss_fail st net t1 url h hfail], ?_⟩
  intro t2
  rw [download_file_miss_fail st net t1 url h hfail]
  dsimp only
  rw [download_file_miss_fail
    (DLState.mk st.session st.throttle_period (t1 + st.throttle_period) st.cache)
    net t2 url h hfail]

/-- Witness for C3: a 404 on an empty cache yields an error, writes nothing,
and leaves the next fetch a miss. -/
theorem download_file_error_no_cache_write_witness :
    (∃ e, (download_file stMissW netFailW 0 urlW).1 = Except.error e) ∧
    (download_file stMissW netFailW 0 urlW).2.1.cache = stMissW.cache ∧
    ∀ t2, (download_file (download_file stMissW netFailW 0 urlW).2.1 netFailW t2 urlW).2.2 = [urlW] :=
  download_file_error_no_cache_write stMissW netFailW 0 urlW (by decide) (by decide)

/-! ## Release gate (`AOCDownloader.problem_released`) -/

/-- Days from the Unix epoch of a proleptic-Gregorian civil date, the
conversion underlying Python's `datetime.date.toordinal` (standard
era-based formula). -/
def daysFromCivil (y m d : Int) : Int :=
  let y2 := if m ≤ 2 then y - 1 else y
  let era := (if 0 ≤ y2 then y2 else y2 - 399) / 400
  let yoe := y2 - era * 400
  let mp := (m + 9) % 12
  let doy := (153 * mp + 2) / 5 + d - 1
  let doe := yoe * 365 + yoe / 4 - yoe / 100 + doy
  era * 146097 + doe - 719468

/-- An aware Python `datetime`: a civil date-time plus a fixed UTC offset
in minutes (`datetime.timezone(timedelta(...))`). -/
structure PyDatetime where
  year : Int
  month : Int
  day : Int
  hour : Int
  minute : Int
  second : Int
  tzOffsetMinutes : Int
deriving DecidableEq

/-- The absolute instant (seconds since the Unix epoch) an aware datetime
denotes: its civil reading minus its UTC offset. -/
def instantOf (dt : PyDatetime) : Int :=
  daysFromCivil dt.year dt.month dt.day * 86400
    + dt.hour * 3600 + dt.minute * 60 + dt.second
    - dt.tzOffsetMinutes * 60

/-- Python `>` on two aware datetimes compares the instants they denote. -/
def pyAfter (a b : PyDatetime) : Bool :=
  decide (instantOf b < instantOf a)

/-- Model of `AOCDownloader.problem_released` (lines 49-53): build
`datetime(year, 12, day)` in the fixed UTC-5 timezone
(`timezone(timedelta(hours=-5))`, i.e. an offset of -300 minutes) and test
whether the current aware time is strictly after it. -/
def problem_released (year day : Int) (now : PyDatetime) : Bool :=
  pyAfter now ⟨year, 12, day, 0, 0, 0, -300⟩

/-- C4: `problem_released year day now` is true exactly when `now` denotes
an instant strictly after midnight of December `day` of `year` in the
fixed UTC-5 offset, i.e. strictly after 05:00 UTC of that civil date; at
or before that instant it is false. -/
theorem problem_released_iff_after (year day : Int) (now : PyDatetime) :
    problem_released year day now = true ↔
      instantOf now > daysFromCivil year 12 day * 86400 + 5 * 3600 := by
  simp only [problem_released, pyAfter, instantOf, decide_eq_true_eq]
  omega

/-! ## C10: the url-to-cache-path mapping is not injective -/

def urlColl1 : List Char := "https://x/a/b".data

def urlColl2 : List Char := "https://x/a_b".data

def netColl : List Char → Response :=
  fun u => if u = urlColl1 then ⟨200, "BODY1".data⟩ else ⟨200, "BODY2".data⟩

/-- C10: two distinct URLs share one cache file, so after fetching the
first, fetching the second returns the first URL's body with no network
request — even though the network would serve different content for it. -/
theorem cache_key_collision :
    urlColl1 ≠ urlColl2 ∧
    urlKey urlColl1 = urlKey urlColl2 ∧
    netColl urlColl2 ≠ netColl urlColl1 ∧
    (download_file stMissW netColl 0 urlColl1).1 = Except.ok "BODY1".data ∧
    (download_file (download_file stMissW netColl 0 urlColl1).2.1 netColl 9 urlColl2).1 =
      Except.ok "BODY1".data ∧
    (download_file (download_file stMissW netColl 0 urlColl1).2.1 netColl 9 urlColl2).2.2 = [] := by
  decide

/-! ## Template expander (`scripts/use_day01_as_template.py`) -/

/-- Python `\s` on the ASCII characters relevant here: space, tab,
newline, carriage return, vertical tab, form feed. -/
def pyWs (c : Char) : Bool :=
  c = ' ' || c = '\t' || c = '\n' || c = '\r' || c = '\x0b' || c = '\x0c'

/-- Decimal digits of a day number, as in Python `f"  {day}"`. -/
def natChars (n : Nat) : List Char :=
  Nat.toDigits 10 n

/-- Python `f"{day:02d}"`: the decimal digits zero-padded to width two. -/
def pad2 (n : Nat) : List Char :=
  if n < 10 then '0' :: natChars n else natChars n

/-- Python `str.replace(needle, repl)`: scan left to right, replacing
non-overlapping occurrences of `needle`.  Fuel-indexed so the recursion is
structural; the script only calls it with nonempty needles, and then each
step consumes at least one character, so fuel `s.length` computes the
replacement of the whole input. -/
def pyReplaceF : Nat → List Char → List Char → List Char → List Char
  | 0, _, _, s => s
  | _ + 1, _, _, [] => []
  | fuel + 1, needle, repl, c :: rest =>
    if needle.isPrefixOf (c :: rest) then
      repl ++ pyReplaceF fuel needle repl (List.drop needle.length (c :: rest))
    else
      c :: pyReplaceF fuel needle repl rest

def pyReplace (s needle repl : List Char) : List Char :=
  pyReplaceF s.length needle repl s

/-- One attempt, at the start of `s`, of the regex
`header` `\s*` `mid` `\s*` `\x7d` used by the script (both patterns end in
a closing brace).  The two `\s*` runs are maximal; since `mid` and the
closing brace start with non-whitespace characters, this is exactly what
the backtracking regex matches.  On success, returns the `before` named
group (`header` plus the first whitespace run), the `after` named group
(the second whitespace run plus the closing brace), and the rest of `s`
after the match. -/
def tryMatch (header mid s : List Char) : Option (List Char × List Char × List Char) :=
  if header.isPrefixOf s then
    let s1 := List.drop header.length s
    let ws1 := s1.takeWhile pyWs
    let s2 := s1.dropWhile pyWs
    if mid.isPrefixOf s2 then
      let s3 := List.drop mid.length s2
      let ws2 := s3.takeWhile pyWs
      match s3.dropWhile pyWs with
      | c :: rest =>
        if c = '\x7d' then some (header ++ ws1, ws2 ++ ['\x7d'], rest) else none
      | [] => none
    else none
  else none

/-- Python `re.sub` for the two structural patterns of the script: scan
left to right, replacing each non-overlapping match with
`before ++ newMid ++ after` and continuing after it.  Fuel-indexed as
above; every match consumes at least the closing brace, so fuel `s.length`
computes the substitution on the whole input. -/
def reSubF : Nat → List Char → List Char → List Char → List Char → List Char
  | 0, _, _, _, s => s
  | _ + 1, _, _, _, [] => []
  | fuel + 1, header, mid, newMid, c :: rest =>
    match tryMatch header mid (c :: rest) with
    | some (before, after, remainder) =>
      before ++ newMid ++ after ++ reSubF fuel header mid newMid remainder
    | none => c :: reSubF fuel header mid newMid rest

def reSub (s header mid newMid : List Char) : List Char :=
  reSubF s.length header mid newMid s

/-- The literal part of the pattern
`fn day\(&self\) -> i32 \x7b` preceding `\s*1\s*\x7d` (line 157). -/
def dayFnHeader : List Char := "fn day(&self) -> i32 \x7b".data

/-- The literal part of the pattern
`fn implemented\(&self\) -> bool \x7b` preceding `\s*true\s*\x7d`
(line 164). -/
def implFnHeader : List Char := "fn implemented(&self) -> bool \x7b".data

/-- The per-day text transformation of `use_day01_as_template.main`
(lines 154-170), in the source's order: replace the `Day01` label, replace
the two-space-indented `1` literal, structural-substitute the `fn day`
body, structural-substitute the `fn implemented` body to `false`. -/
def expandDay (day : Nat) (template : List Char) : List Char :=
  let t1 := pyReplace template "Day01".data ("Day".data ++ pad2 day)
  let t2 := pyReplace t1 "  1".data ("  ".data ++ natChars day)
  let t3 := reSub t2 dayFnHeader ['1'] (natChars day)
  reSub t3 implFnHeader "true".data "false".data

/-- The per-day output file name `day{day:02d}.rs` (line 171). -/
def dayFileName (day : Nat) : List Char :=
  "day".data ++ pad2 day ++ ".rs".data

/-- The files written by `use_day01_as_template.main`: one per day in
`range(2, 26)`, written unconditionally (lines 153, 171-173). -/
def expanderWrites (template : List Char) : List (List Char × List Char) :=
  (List.range' 2 24).map (fun d => (dayFileName d, expandDay d template))

/-- The skeleton of the day-1 template solution file with the three
varying pieces — display label, day-number literal, implemented literal —
as parameters; instantiating them differently is exactly "the template
modulo those three substitutions". -/
def templateShape (label dayLit implLit : List Char) : List Char :=
  "pub struct Day".data ++ label
    ++ ";\n\nimpl Puzzle for Day".data ++ label
    ++ " \x7b\n  fn day(&self) -> i32 \x7b\n    ".data ++ dayLit
    ++ "\n  \x7d\n\n  fn implemented(&self) -> bool \x7b\n    ".data ++ implLit
    ++ "\n  \x7d\n\x7d\n".data

/-- Modelled from the spec: the template file `src/solutions/day01.rs` is
read by the expander but is not among the sources.  Per the spec it
contains the `Day01` display label, a two-space-indented day literal `1`,
a `fn day` body returning the integer literal `1`, and a
`fn implemented` body returning the boolean literal `true`. -/
def day01_template : List Char := templateShape "01".data ['1'] "true".data

set_option maxRecDepth 40000 in
/-- C5: for every day in `[2, 25]` the expander output is byte-identical
to the template except for the three substitutions: the display label
becomes `Day{day:02d}`, the `fn day` body returns the day number, and the
`fn implemented` body returns `false`. -/
theorem expandDay_three_substitutions (d : Nat) (h2 : 2 ≤ d) (h25 : d ≤ 25) :
    expandDay d day01_template = templateShape (pad2 d) (natChars d) "false".data := by
  interval_cases d <;> decide

/-- Witness for C5 at day 2. -/
theorem expandDay_three_substitutions_witness :
    expandDay 2 day01_template = templateShape (pad2 2) (natChars 2) "false".data :=
  expandDay_three_substitutions 2 (by decide) (by decide)

/-- Whether the structural pattern `header \s* mid \s* \x7d` matches
anywhere in `s`. -/
def hasMatch (header mid : List Char) : List Char → Bool
  | [] => (tryMatch header mid []).isSome
  | c :: rest => (tryMatch header mid (c :: rest)).isSome || hasMatch header mid rest

/-- If the structural pattern matches nowhere, `reSubF` is the identity,
whatever the fuel. -/
theorem reSubF_no_match (header mid newMid : List Char) :
    ∀ (fuel : Nat) (s : List Char), hasMatch header mid s = false →
      reSubF fuel header mid newMid s = s := by
  intro fuel
  induction fuel with
  | zero => intro s _; rfl
  | succ n ih =>
    intro s h
    cases s with
    | nil => rfl
    | cons c rest =>
      rw [hasMatch, Bool.or_eq_false_iff] at h
      obtain ⟨h1, h2⟩ := h
      have h1n : tryMatch header mid (c :: rest) = none := by
        cases htm : tryMatch header mid (c :: rest) with
        | none => rfl
        | some v => rw [htm] at h1; simp at h1
      rw [reSubF, h1n]
      exact congrArg (c :: ·) (ih rest h2)

/-- C9: when a structural pattern (the `fn day` one or the
`fn implemented` one) does not match the template text, the corresponding
substitution returns the text unchanged and no error is raised; the
expander still produces a write of the per-day output file for every day
in `[2, 25]`. -/
theorem expander_no_match_no_op (t : List Char) (d : Nat) :
    (hasMatch dayFnHeader ['1'] t = false →
      reSub t dayFnHeader ['1'] (natChars d) = t) ∧
    (hasMatch implFnHeader "true".data t = false →
      reSub t implFnHeader "true".data "false".data = t) ∧
    (expanderWrites t).length = 24 ∧
    (∀ k, 2 ≤ k → k ≤ 25 → (dayFileName k, expandDay k t) ∈ expanderWrites t) := by
  refine ⟨fun h => reSubF_no_match dayFnHeader ['1'] (natChars d) t.length t h,
    fun h => reSubF_no_match implFnHeader "true".data "false".data t.length t h,
    by simp [expanderWrites], ?_⟩
  intro k hk2 hk25
  have hk : k ∈ List.range' 2 24 := by
    rw [List.mem_range'_1]
    omega
  exact List.mem_map_of_mem (fun d => (dayFileName d, expandDay d t)) hk

/-- Witness for C9: a text in which neither pattern matches is left
unchanged by both substitutions, and the day-2 write is still produced. -/
theorem expander_no_match_no_op_witness :
    (reSub "fn day(&self) -> i32 ;".data dayFnHeader ['1'] (natChars 3) =
      "fn day(&self) -> i32 ;".data) ∧
    (reSub "fn day(&self) -> i32 ;".data implFnHeader "true".data "false".data =
      "fn day(&self) -> i32 ;".data) ∧
    (dayFileName 2, expandDay 2 "fn day(&self) -> i32 ;".data) ∈
      expanderWrites "fn day(&self) -> i32 ;".data :=
  ⟨(expander_no_match_no_op "fn day(&self) -> i32 ;".data 3).1 (by decide),
   (expander_no_match_no_op "fn day(&self) -> i32 ;".data 3).2.1 (by decide),
   (expander_no_match_no_op "fn day(&self) -> i32 ;".data 3).2.2.2 2 (by decide) (by decide)⟩

/-! ## Example extraction (`AOCDownloader.download_examples`) -/

/-- Node of a parsed HTML document as BeautifulSoup presents it: a tag
with a name and children, or a bare string (`NavigableString`). -/
inductive HNode where
  | str : String → HNode
  | tag : String → List HNode → HNode

mutual
/-- Rendered text of a node, `PageElement.get_text()`: the concatenation
of all descendant strings in document order (empty separator). -/
def getText : HNode → List Char
  | .str s => s.data
  | .tag _ cs => getTextList cs
def getTextList : List HNode → List Char
  | [] => []
  | n :: rest => getText n ++ getTextList rest
end

/-- Python `hasattr(node, "get_text")` for a node of the parsed document:
true for every node, since bs4 (4.9 and later, current when this script
was written) defines `get_text` on `Tag` and `NavigableString` alike.
The walk below only leaves the loop through this test failing on `None`,
which is modelled by the sibling list running out. -/
def has_get_text : HNode → Bool
  | _ => true

/-- Truthiness of `node.get_text().strip()`: the rendered text contains a
character that is not Python whitespace. -/
def textNonWs (n : HNode) : Bool :=
  (getText n).any (fun c => !pyWs c)

/-- The caption walk of `download_examples` (lines 71-78) over the
preceding siblings of a `pre` block, nearest sibling first: keep stepping
to the previous sibling until one has `get_text` and non-whitespace text.
`none` models walking off the start of the chain: `previous_sibling` of
the first sibling is `None`, the `hasattr` test fails on it, and the next
`None.previous_sibling` raises an `AttributeError`. -/
def findCaption : List HNode → Option HNode
  | [] => none
  | n :: rest => if has_get_text n && textNonWs n then some n else findCaption rest

mutual
/-- All `pre` tags beneath a node in document order
(`soup.find_all("pre")`), each paired with the list of its preceding
siblings, nearest first. -/
def presIn : HNode → List (HNode × List HNode)
  | .str _ => []
  | .tag _ cs => presInList [] cs
def presInList : List HNode → List HNode → List (HNode × List HNode)
  | _, [] => []
  | prevRev, n :: rest => presInHead prevRev n ++ presInList (n :: prevRev) rest
def presInHead : List HNode → HNode → List (HNode × List HNode)
  | _, .str _ => []
  | prevRev, .tag nm cs =>
    (if nm = "pre" then [(HNode.tag nm cs, prevRev)] else []) ++ presInList [] cs
end

/-- Python `needle in haystack` on strings. -/
def hasSubstr (needle : List Char) : List Char → Bool
  | [] => needle.isPrefixOf []
  | c :: rest => needle.isPrefixOf (c :: rest) || hasSubstr needle rest

/-- The filter of line 80: `"example" in caption.get_text().lower()`. -/
def mentionsExample (t : List Char) : Bool :=
  hasSubstr "example".data (t.map Char.toLower)

/-- The collection loop of `download_examples` (lines 69-83) over the
`pre` blocks: find each block's caption (raising — `Except.error` — if the
walk runs off the chain) and keep the block's rendered text when the
caption mentions "example".  Sequencing through `Except` matches the
source, where an exception aborts the whole call. -/
def collectExamples : List (HNode × List HNode) → Except Unit (List (List Char))
  | [] => Except.ok []
  | (pre, prevRev) :: rest =>
    match findCaption prevRev with
    | none => Except.error ()
    | some cap =>
      match collectExamples rest with
      | Except.error e => Except.error e
      | Except.ok tl =>
        Except.ok (if mentionsExample (getText cap) then getText pre :: tl else tl)

/-- The parsing-and-scraping part of `download_examples`, applied to a
parsed puzzle page. -/
def scrape_examples (doc : HNode) : Except Unit (List (List Char)) :=
  collectExamples (presIn doc)

/-- Stated from the spec, for comparison with the code: the caption is
the nearest preceding sibling with non-whitespace renderable text. -/
def specCaption (prevRev : List HNode) : Option HNode :=
  prevRev.find? textNonWs

/-- Stated from the spec, for comparison with the code: the blocks whose
caption mentions "example" (case-insensitively), in document order. -/
def specExamples (doc : HNode) : List (List Char) :=
  (presIn doc).filterMap (fun pr =>
    match specCaption pr.2 with
    | none => none
    | some cap =>
      if mentionsExample (getText cap) then some (getText pr.1) else none)

/-- The code's caption walk computes the spec's caption. -/
theorem findCaption_eq_spec (l : List HNode) : findCaption l = specCaption l := by
  induction l with
  | nil => rfl
  | cons n rest ih =>
    rw [findCaption, specCaption, List.find?]
    rw [specCaption] at ih
    cases h : textNonWs n with
    | true => simp [has_get_text, h]
    | false => simp [has_get_text, h, ih]

/-- Helper for C6: the collection loop refines the spec list when every
block's caption exists. -/
theorem collectExamples_ok (l : List (HNode × List HNode))
    (h : ∀ pr ∈ l, (specCaption pr.2).isSome = true) :
    collectExamples l = Except.ok (l.filterMap (fun pr =>
      match specCaption pr.2 with
      | none => none
      | some cap =>
        if mentionsExample (getText cap) then some (getText pr.1) else none)) := by
  induction l with
  | nil => rfl
  | cons hd rest ih =>
    obtain ⟨pre, prevRev⟩ := hd
    have hhd := h (pre, prevRev) (List.mem_cons_self _ _)
    obtain ⟨cap, hcap⟩ := Option.isSome_iff_exists.mp hhd
    have hrest := ih (fun pr hpr => h pr (List.mem_cons_of_mem _ hpr))
    rw [collectExamples, findCaption_eq_spec]
    dsimp only at hcap ⊢
    rw [hcap, hrest, List.filterMap_cons]
    dsimp only
    rw [hcap]
    cases hm : mentionsExample (getText cap) <;> simp [hm]

/-- C6: on a page where every preformatted block has a caption (a nearest
preceding sibling with non-whitespace renderable text), the scraper
returns, in document order, exactly the rendered texts of the blocks
whose caption contains "example" case-insensitively — and no others. -/
theorem scrape_examples_caption_filter (doc : HNode)
    (h : ∀ pr ∈ presIn doc, (specCaption pr.2).isSome = true) :
    scrape_examples doc = Except.ok (specExamples doc) :=
  collectExamples_ok (presIn doc) h

/-- A small well-formed page: a paragraph saying "For example:", a
whitespace gap, an example block, then a paragraph without "example" and
a second block. -/
def docW : HNode :=
  .tag "body"
    [.tag "p" [.str "For example:"], .str "\n",
     .tag "pre" [.tag "code" [.str "X\nY\n"]], .str "\n",
     .tag "p" [.str "Some notes."], .str "\n",
     .tag "pre" [.tag "code" [.str "Z\n"]]]

/-- Witness for C6: on `docW` the scraper keeps the first block's text
"X\nY\n" and drops the second block. -/
theorem scrape_examples_caption_filter_witness :
    scrape_examples docW = Except.ok ["X\nY\n".data] := by
  have h := scrape_examples_caption_filter docW (by decide)
  rw [h]
  decide

/-- Helper for C8: one caption-less block makes the whole loop raise. -/
theorem collectExamples_error (l : List (HNode × List HNode))
    (h : ∃ pr ∈ l, findCaption pr.2 = none) :
    collectExamples l = Except.error () := by
  induction l with
  | nil => simp at h
  | cons hd rest ih =>
    obtain ⟨pre, prevRev⟩ := hd
    rw [collectExamples]
    cases hc : findCaption prevRev with
    | none => rfl
    | some cap =>
      have hrest : ∃ pr ∈ rest, findCaption pr.2 = none := by
        obtain ⟨pr, hmem, hnone⟩ := h
        rcases List.mem_cons.mp hmem with heq | hmem2
        · rw [heq] at hnone
          dsimp only at hnone
          rw [hc] at hnone
          exact absurd hnone (Option.noConfusion)
        · exact ⟨pr, hmem2, hnone⟩
      rw [ih hrest]

/-- If no preceding sibling has non-whitespace text, the caption walk
runs off the chain. -/
theorem findCaption_none (l : List HNode) (h : ∀ n ∈ l, textNonWs n = false) :
    findCaption l = none := by
  induction l with
  | nil => rfl
  | cons n rest ih =>
    rw [findCaption]
    rw [h n (List.mem_cons_self _ _)]
    exact ih (fun m hm => h m (List.mem_cons_of_mem _ hm))

/-- C8: if some preformatted block has no preceding sibling with
non-whitespace renderable text, the sibling walk runs off the start of
the chain and `download_examples` terminates by raising (modelled as
`Except.error`); being a total function, the model in particular cannot
loop forever, and no result list is returned. -/
theorem scrape_examples_malformed (doc : HNode)
    (h : ∃ pr ∈ presIn doc, ∀ n ∈ pr.2, textNonWs n = false) :
    scrape_examples doc = Except.error () := by
  apply collectExamples_error
  obtain ⟨pr, hmem, hall⟩ := h
  exact ⟨pr, hmem, findCaption_none pr.2 hall⟩

/-- A malformed page: a `pre` block whose only preceding sibling is
whitespace. -/
def docMalformedW : HNode :=
  .tag "body" [.str "\n", .tag "pre" [.str "X"]]

/-- Witness for C8 on the malformed page. -/
theorem scrape_examples_malformed_witness :
    scrape_examples docMalformedW = Except.error () :=
  scrape_examples_malformed docMalformedW (by decide)

/-! ## Input sync driver (`download_inputs.main`) -/

/-- Whether a file name matches the glob `day{day:02d}_example*.txt` of
line 91: the fixed prefix, then anything, then the `.txt` suffix. -/
def exampleGlob (day : Nat) (name : List Char) : Bool :=
  ("day".data ++ pad2 day ++ "_example".data).isPrefixOf name &&
  List.isSuffixOf ".txt".data name &&
  decide (("day".data ++ pad2 day ++ "_example".data).length + 4 ≤ name.length)

/-- Example output file `day{day:02d}_example{i+1}.txt` (line 97). -/
def exampleFileName (day i : Nat) : List Char :=
  "day".data ++ pad2 day ++ "_example".data ++ natChars i ++ ".txt".data

/-- Input output file `day{day:02d}.txt` (line 104). -/
def inputFileName (day : Nat) : List Char :=
  "day".data ++ pad2 day ++ ".txt".data

/-- Puzzle page URL (line 65). -/
def pageUrl (year day : Nat) : List Char :=
  "https://adventofcode.com/".data ++ natChars year ++ "/day/".data ++ natChars day

/-- Puzzle input URL (line 58). -/
def inputUrl (year day : Nat) : List Char :=
  pageUrl year day ++ "/input".data

/-- The ambient effects of the scripts: the network (`requests.get`) and
the HTML parser (`BeautifulSoup` with the lxml backend). -/
structure Env where
  net : List Char → Response
  parse : List Char → HNode

/-- Model of `AOCDownloader.download_examples` (lines 61-83): nothing when the day
is unreleased, otherwise fetch the puzzle page, parse it and scrape the
example blocks.  Result components as in `download_file`; any raised
exception (HTTP error or the caption walk running off) is `Except.error`. -/
def download_examples (year : Nat) (st : DLState) (env : Env)
    (now : PyDatetime) (t : Int) (day : Nat) :
    Except Unit (Option (List (List Char)) × DLState × List (List Char)) :=
  if problem_released year day now then
    match download_file st env.net t (pageUrl year day) with
    | (Except.error _, _, _) => Except.error ()
    | (Except.ok html, st1, calls) =>
      match scrape_examples (env.parse html) with
      | Except.error _ => Except.error ()
      | Except.ok exs => Except.ok (some exs, st1, calls)
  else Except.ok (none, st, [])

/-- Model of `AOCDownloader.download_input` (lines 55-59): nothing when the day is
unreleased, otherwise fetch the input endpoint. -/
def download_input (year : Nat) (st : DLState) (env : Env)
    (now : PyDatetime) (t : Int) (day : Nat) :
    Except Unit (Option (List Char) × DLState × List (List Char)) :=
  if problem_released year day now then
    match download_file st env.net t (inputUrl year day) with
    | (Except.error _, _, _) => Except.error ()
    | (Except.ok txt, st1, calls) => Except.ok (some txt, st1, calls)
  else Except.ok (none, st, [])

/-- One day of the example pass of `main` (lines 90-101): if any file in
the inputs directory matches the glob, skip the day entirely; otherwise
download the examples and write them to 1-indexed files.  The
`Except.ok (none, ..)` case of `download_examples` raises: the source
iterates `enumerate(examples)` with `examples = None` (a `TypeError`).
Result: inputs-directory contents, downloader state, writes performed
(name and content), network calls performed. -/
def syncExamplesDay (year : Nat) (env : Env) (now : PyDatetime) (t : Int)
    (fs : List (List Char)) (st : DLState) (day : Nat) :
    Except Unit (List (List Char) × DLState × List (List Char × List Char) × List (List Char)) :=
  if fs.any (exampleGlob day) then Except.ok (fs, st, [], [])
  else
    match download_examples year st env now t day with
    | Except.error _ => Except.error ()
    | Except.ok (none, _, _) => Except.error ()
    | Except.ok (some exs, st1, calls) =>
      let writes := exs.enum.map (fun p => (exampleFileName day (p.1 + 1), p.2))
      Except.ok (fs ++ writes.map Prod.fst, st1, writes, calls)

/-- One day of the input pass of `main` (lines 103-113): skip if the
day's input file exists; otherwise download, and write only when the
result is truthy (released and non-empty). -/
def syncInputDay (year : Nat) (env : Env) (now : PyDatetime) (t : Int)
    (fs : List (List Char)) (st : DLState) (day : Nat) :
    Except Unit (List (List Char) × DLState × List (List Char × List Char) × List (List Char)) :=
  if fs.contains (inputFileName day) then Except.ok (fs, st, [], [])
  else
    match download_input year st env now t day with
    | Except.error _ => Except.error ()
    | Except.ok (none, st1, calls) => Except.ok (fs, st1, [], calls)
    | Except.ok (some txt, st1, calls) =>
      if txt.isEmpty then Except.ok (fs, st1, [], calls)
      else Except.ok (fs ++ [inputFileName day], st1, [(inputFileName day, txt)], calls)

/-- The example pass over a list of days, threading directory and
downloader state and accumulating writes and network calls. -/
def runExamplePass (year : Nat) (env : Env) (now : PyDatetime) (t : Int) :
    List Nat → List (List Char) → DLState →
    Except Unit (List (List Char) × DLState × List (List Char × List Char) × List (List Char))
  | [], fs, st => Except.ok (fs, st, [], [])
  | d :: ds, fs, st =>
    match syncExamplesDay year env now t fs st d with
    | Except.error _ => Except.error ()
    | Except.ok (fs1, st1, w1, c1) =>
      match runExamplePass year env now t ds fs1 st1 with
      | Except.error _ => Except.error ()
      | Except.ok (fs2, st2, w2, c2) => Except.ok (fs2, st2, w1 ++ w2, c1 ++ c2)

/-- The input pass over a list of days. -/
def runInputPass (year : Nat) (env : Env) (now : PyDatetime) (t : Int) :
    List Nat → List (List Char) → DLState →
    Except Unit (List (List Char) × DLState × List (List Char × List Char) × List (List Char))
  | [], fs, st => Except.ok (fs, st, [], [])
  | d :: ds, fs, st =>
    match syncInputDay year env now t fs st d with
    | Except.error _ => Except.error ()
    | Except.ok (fs1, st1, w1, c1) =>
      match runInputPass year env now t ds fs1 st1 with
      | Except.error _ => Except.error ()
      | Except.ok (fs2, st2, w2, c2) => Except.ok (fs2, st2, w1 ++ w2, c1 ++ c2)

/-- The days `range(1, 26)` of `main`. -/
def dayRange : List Nat := List.range' 1 25

/-- Model of `download_inputs.main` (lines 86-113): the example pass over all 25
days, then the input pass over all 25 days. -/
def mainSync (year : Nat) (env : Env) (now : PyDatetime) (t : Int)
    (fs : List (List Char)) (st : DLState) :
    Except Unit (List (List Char) × DLState × List (List Char × List Char) × List (List Char)) :=
  match runExamplePass year env now t dayRange fs st with
  | Except.error _ => Except.error ()
  | Except.ok (fs1, st1, w1, c1) =>
    match runInputPass year env now t dayRange fs1 st1 with
    | Except.error _ => Except.error ()
    | Except.ok (fs2, st2, w2, c2) => Except.ok (fs2, st2, w1 ++ w2, c1 ++ c2)

/-- Helper: a day whose example glob matches is skipped untouched. -/
theorem syncExamplesDay_skip (year : Nat) (env : Env) (now : PyDatetime)
    (t : Int) (fs : List (List Char)) (st : DLState) (day : Nat)
    (h : fs.any (exampleGlob day) = true) :
    syncExamplesDay year env now t fs st day = Except.ok (fs, st, [], []) := by
  simp [syncExamplesDay, h]

/-- Helper: a day whose input file exists is skipped untouched. -/
theorem syncInputDay_skip (year : Nat) (env : Env) (now : PyDatetime)
    (t : Int) (fs : List (List Char)) (st : DLState) (day : Nat)
    (h : inputFileName day ∈ fs) :
    syncInputDay year env now t fs st day = Except.ok (fs, st, [], []) := by
  simp [syncInputDay, h]

/-- Helper: the example pass over days that all have example files does
nothing. -/
theorem runExamplePass_skip (year : Nat) (env : Env) (now : PyDatetime)
    (t : Int) :
    ∀ (ds : List Nat) (fs : List (List Char)) (st : DLState),
      (∀ d ∈ ds, fs.any (exampleGlob d) = true) →
      runExamplePass year env now t ds fs st = Except.ok (fs, st, [], []) := by
  intro ds
  induction ds with
  | nil => intro fs st _; rfl
  | cons d rest ih =>
    intro fs st h
    have hd := syncExamplesDay_skip year env now t fs st d (h d (List.mem_cons_self _ _))
    have hrest := ih fs st (fun e he => h e (List.mem_cons_of_mem _ he))
    simp [runExamplePass, hd, hrest]

/-- Helper: the input pass over days that all have input files does
nothing. -/
theorem runInputPass_skip (year : Nat) (env : Env) (now : PyDatetime)
    (t : Int) :
    ∀ (ds : List Nat) (fs : List (List Char)) (st : DLState),
      (∀ d ∈ ds, inputFileName d ∈ fs) →
      runInputPass year env now t ds fs st = Except.ok (fs, st, [], []) := by
  intro ds
  induction ds with
  | nil => intro fs st _; rfl
  | cons d rest ih =>
    intro fs st h
    have hd := syncInputDay_skip year env now t fs st d (h d (List.mem_cons_self _ _))
    have hrest := ih fs st (fun e he => h e (List.mem_cons_of_mem _ he))
    simp [runInputPass, hd, hrest]

/-- C7: a day with an existing example file is skipped by the example
pass with no fetch and no write; a day with an existing input file is
skipped by the input pass likewise; hence when every day's files exist
(as after a completed run, with nothing changed externally), a run of the
sync driver performs zero network calls and zero writes and leaves
directory and downloader state unchanged. -/
theorem sync_driver_skips_existing (year : Nat) (env : Env)
    (now : PyDatetime) (t : Int) (fs : List (List Char)) (st : DLState) :
    (∀ day, fs.any (exampleGlob day) = true →
      syncExamplesDay year env now t fs st day = Except.ok (fs, st, [], [])) ∧
    (∀ day, inputFileName day ∈ fs →
      syncInputDay year env now t fs st day = Except.ok (fs, st, [], [])) ∧
    ((∀ d ∈ dayRange, fs.any (exampleGlob d) = true) →
      (∀ d ∈ dayRange, inputFileName d ∈ fs) →
      mainSync year env now t fs st = Except.ok (fs, st, [], [])) := by
  refine ⟨fun day h => syncExamplesDay_skip year env now t fs st day h,
    fun day h => syncInputDay_skip year env now t fs st day h,
    fun h1 h2 => ?_⟩
  have he := runExamplePass_skip year env now t dayRange fs st h1
  have hi := runInputPass_skip year env now t dayRange fs st h2
  simp [mainSync, he, hi]

/-- A directory holding one example file and the input file for each of
the 25 days. -/
def fsW : List (List Char) :=
  dayRange.map (fun d => exampleFileName d 1) ++ dayRange.map inputFileName

def envW : Env := ⟨netW, fun _ => HNode.str ""⟩

def nowW : PyDatetime := ⟨2020, 12, 25, 12, 0, 0, -300⟩

/-- Witness for C7: on the fully-populated directory the whole driver run
is a no-op with no network calls. -/
theorem sync_driver_skips_existing_witness :
    mainSync 2020 envW nowW 0 fsW stMissW = Except.ok (fsW, stMissW, [], []) :=
  (sync_driver_skips_existing 2020 envW nowW 0 fsW stMissW).2.2
    (by decide) (by decide)
